import Mathlib

/-!
Verification of the volumescaler controller (`main.go`).

The repository ships two variants of the controller loop in `main.go`; the
dynamic-client variant without the cooldown check (the later one, whose
max-size short-circuit, threshold test, scaling computation and status patches
are embedded below) is the reference.  Sizes are measured in Gi and modelled
as exact rationals; on every concrete input appearing in a theorem below the
Go float64 computation is exact, so the rational model agrees with the source
bit for bit.  `Rat.add`, `Rat.mul`, `Rat.inv` and `Rat.sub` are only
tactic-irreducible in the library; making them semireducible lets `decide`
evaluate the model on concrete inputs.
-/

attribute [local semireducible] Rat.mul Rat.inv Rat.add Rat.sub

namespace Volumescaler

/-- Go conversion `int(x)` from float to int: truncation toward zero
(equal to the floor for the nonnegative utilization values the code feeds it). -/
def goInt (q : ℚ) : ℤ := if 0 ≤ q then ⌊q⌋ else ⌈q⌉

/-- Rounding performed by Go `fmt.Sprintf("%.0f", x)`: nearest integer,
ties going to the even integer. -/
def roundHalfEven (q : ℚ) : ℤ :=
  if q - ⌊q⌋ < 1/2 then ⌊q⌋
  else if 1/2 < q - ⌊q⌋ then ⌊q⌋ + 1
  else if ⌊q⌋ % 2 = 0 then ⌊q⌋ else ⌊q⌋ + 1

/-- The size string `fmt.Sprintf("%.0fGi", newSize)` placed in the PVC resize
patch, given the already-rounded whole-Gi value. -/
def formatGi (g : ℤ) : String := toString g ++ "Gi"

/-- The Go loop `for i, r := range sizeStr` in `convertToGi` breaks at the
first rune `r` with `r < '0' || r > '9'`; this returns
`some (sizeStr[:i], sizeStr[i:])` for that first index `i`, and `none` when
the loop completes without breaking (every rune is an ASCII digit, including
the empty string). -/
def splitNumUnit (cs : List Char) : Option (List Char × List Char) :=
  match cs.findIdx? (fun r => decide (r.toNat < 48) || decide (57 < r.toNat)) with
  | some i => some (cs.take i, cs.drop i)
  | none => none

/-- Go `strconv.ParseFloat` restricted to the only inputs `convertToGi` can
pass it: a (possibly empty) maximal run of ASCII digits.  Such a string
denotes its decimal value, exact here in ℚ; the empty string is a parse
error. -/
def parseDigits (cs : List Char) : Option ℚ :=
  if cs = [] then none
  else if cs.all (fun c => decide (48 ≤ c.toNat) && decide (c.toNat ≤ 57)) then
    some ((cs.foldl (fun a c => a * 10 + (c.toNat - 48)) 0 : ℕ) : ℚ)
  else none

/-- `convertToGi` from `main.go`: split the size string at the first non-digit
rune; if the whole string was digits, keep it as the number with default unit
`"Gi"`; parse the numeric part; scale by the unit (`"Mi"` divides by 1024,
`"Ti"` multiplies by 1024, `"Gi"` and any unrecognized unit leave the number
unchanged). -/
def convertToGi (sizeStr : String) : Option ℚ :=
  let cs := sizeStr.toList
  let pr := match splitNumUnit cs with
            | some x => x
            | none => (cs, "Gi".toList)
  match parseDigits pr.1 with
  | none => none
  | some number =>
    if pr.2 = "Gi".toList then some number
    else if pr.2 = "Mi".toList then some (number / 1024)
    else if pr.2 = "Ti".toList then some (number * 1024)
    else some number

/-- Status subresource of a VolumeScaler object (`scaledAt`, `reachedMaxSize`). -/
structure ScalerStatus where
  scaledAt : Option String
  reachedMaxSize : Bool
deriving DecidableEq

/-- Outcome oracle for the external patch calls one reconciliation pass can
issue, plus the wall-clock string the pass would write into `scaledAt`.
Each field tells whether the corresponding kubectl/dynamic-client patch call
returns an error. -/
structure World where
  pvcPatchOk : Bool
  scaledAtPatchOk : Bool
  reachedMaxPatchOk : Bool
  now : String
deriving DecidableEq

/-- A world in which every patch call succeeds. -/
def allOk : World := ⟨true, true, true, "2026-01-01T00:00:00Z"⟩

/-- Observable outcome of one reconciliation pass for one PVC/policy pair:
which requests were issued, which errors were merely logged, and the PVC size
and scaler status as the next pass would observe them. -/
structure SyncResult where
  probed : Bool
  issuedResize : Option ℤ
  issuedScaledAtPatch : Bool
  issuedReachedMaxPatch : Bool
  loggedErrors : List String
  finalSize : ℚ
  finalStatus : ScalerStatus
deriving DecidableEq

/-- Go `usedGi := usedBlocks / (1024 * 1024)`. -/
def usedGiOf (usedBlocks : ℚ) : ℚ := usedBlocks / (1024 * 1024)

/-- Go `utilization := (usedGi / currentPVCSize) * 100`. -/
def utilizationOf (cur usedBlocks : ℚ) : ℚ := usedGiOf usedBlocks / cur * 100

/-- Go size computation: `newSize := currentPVCSize + currentPVCSize*(scaleVal/100.0)`,
then `if newSize > maxSizeGi { newSize = maxSizeGi }`. -/
def newSizeOf (cur scaleVal mx : ℚ) : ℚ :=
  if cur + cur * (scaleVal / 100) > mx then mx else cur + cur * (scaleVal / 100)

/-- One reconciliation pass of `main.go` for one PVC and its matching
VolumeScaler, after the policy fields have been fetched and parsed
(`cur` = `currentPVCSize`, `usedBlocks` = the df used-blocks figure,
`threshold`, `scaleVal`, `mx` = `maxSizeGi`).  Follows the source order:
max-size short-circuit, utilization probe, threshold test, size computation
with clamp, PVC resize patch, `scaledAt` status patch, near-max
`reachedMaxSize` status patch.  Patch errors are printed (collected here in
`loggedErrors`) and the pass continues or skips exactly as the `continue`
statements in the source do. -/
def sync (cur usedBlocks : ℚ) (threshold : ℤ) (scaleVal mx : ℚ)
    (st : ScalerStatus) (w : World) : SyncResult :=
  if mx ≤ cur then
    if st.reachedMaxSize then
      ⟨false, none, false, false, [], cur, st⟩
    else if w.reachedMaxPatchOk then
      ⟨false, none, false, true, [], cur, { st with reachedMaxSize := true }⟩
    else
      ⟨false, none, false, true, ["Error patching VolumeScaler status"], cur, st⟩
  else
    if threshold ≤ goInt (utilizationOf cur usedBlocks) then
      if newSizeOf cur scaleVal mx = cur then
        ⟨true, none, false, false, [], cur, st⟩
      else if w.pvcPatchOk then
        if mx - newSizeOf cur scaleVal mx ≤ 1 ∧ st.reachedMaxSize = false then
          if w.reachedMaxPatchOk then
            ⟨true, some (roundHalfEven (newSizeOf cur scaleVal mx)), true, true,
              if w.scaledAtPatchOk then [] else ["Error patching VolumeScaler scaledAt"],
              (roundHalfEven (newSizeOf cur scaleVal mx) : ℚ),
              ⟨if w.scaledAtPatchOk then some w.now else st.scaledAt, true⟩⟩
          else
            ⟨true, some (roundHalfEven (newSizeOf cur scaleVal mx)), true, true,
              (if w.scaledAtPatchOk then [] else ["Error patching VolumeScaler scaledAt"])
                ++ ["Error patching VolumeScaler reachedMaxSize"],
              (roundHalfEven (newSizeOf cur scaleVal mx) : ℚ),
              ⟨if w.scaledAtPatchOk then some w.now else st.scaledAt, st.reachedMaxSize⟩⟩
        else
          ⟨true, some (roundHalfEven (newSizeOf cur scaleVal mx)), true, false,
            if w.scaledAtPatchOk then [] else ["Error patching VolumeScaler scaledAt"],
            (roundHalfEven (newSizeOf cur scaleVal mx) : ℚ),
            ⟨if w.scaledAtPatchOk then some w.now else st.scaledAt, st.reachedMaxSize⟩⟩
      else
        ⟨true, some (roundHalfEven (newSizeOf cur scaleVal mx)), false, false,
          ["Failed to scale PVC"], cur, st⟩
    else
      ⟨true, none, false, false, [], cur, st⟩

/-- Two immediately consecutive passes for the same policy between which no
external state changes: the second pass observes exactly the same size,
utilization and status as the first. -/
def syncTwice (cur usedBlocks : ℚ) (threshold : ℤ) (scaleVal mx : ℚ)
    (st : ScalerStatus) (w : World) : SyncResult × SyncResult :=
  (sync cur usedBlocks threshold scaleVal mx st w,
   sync cur usedBlocks threshold scaleVal mx st w)

/-- Applying a merge patch that requests `g` Gi to a PVC of size `sz` sets the
size to `g` Gi, whatever `sz` was: the operation the resize request performs
at the target. -/
def applyResizePatch (_sz : ℚ) (g : ℤ) : ℚ := (g : ℚ)

/-- Iterated reconciliation of one PVC/policy pair: pass `n` observes the size
and status left behind by pass `n - 1`, the `df` used-blocks figure `used n`
and the patch outcomes `w n`. -/
def runSteps (used : ℕ → ℚ) (w : ℕ → World) (threshold : ℤ) (scaleVal mx : ℚ)
    (st0 : ScalerStatus) (init : ℚ) : ℕ → ℚ × ScalerStatus
  | 0 => (init, st0)
  | n + 1 =>
    let p := runSteps used w threshold scaleVal mx st0 init n
    let r := sync p.1 (used n) threshold scaleVal mx p.2 (w n)
    (r.finalSize, r.finalStatus)

/-- Modelled from the spec: the repository contains no Work Queue code (the
shipped loop re-scans all volumes on a fixed interval), so the deduplicating
dispatch queue of spec section 4.2 is modelled from its words: a mapping from
identifier to pending membership plus an in-flight mark. -/
structure WorkQueue (α : Type) where
  pending : List α
  inFlight : List α

/-- Modelled from the spec: the empty Work Queue. -/
def WorkQueue.empty (α : Type) : WorkQueue α := ⟨[], []⟩

/-- Modelled from the spec: `add(id)` enqueues unless the identifier is
already pending (a duplicate enqueue of a pending identifier is a no-op). -/
def WorkQueue.add {α : Type} [DecidableEq α] (q : WorkQueue α) (id0 : α) : WorkQueue α :=
  if id0 ∈ q.pending then q else { q with pending := q.pending ++ [id0] }

/-- Modelled from the spec: `get()` delivers the oldest pending identifier,
moving it to the in-flight set; `none` when nothing is pending. -/
def WorkQueue.get {α : Type} (q : WorkQueue α) : Option (α × WorkQueue α) :=
  match q.pending with
  | [] => none
  | x :: xs => some (x, ⟨xs, x :: q.inFlight⟩)

/-- Modelled from the spec: the sequence of identifiers `get()` delivers while
the queue drains with no further enqueues. -/
def WorkQueue.deliveries {α : Type} : WorkQueue α → List α
  | ⟨[], _⟩ => []
  | ⟨x :: xs, f⟩ => x :: WorkQueue.deliveries ⟨xs, x :: f⟩
termination_by q => q.pending.length

/-- The rounding of `fmt.Sprintf("%.0f", ·)` never goes below the floor. -/
theorem floor_le_roundHalfEven (q : ℚ) : ⌊q⌋ ≤ roundHalfEven q := by
  unfold roundHalfEven
  split_ifs <;> omega

/-- The rounding of `fmt.Sprintf("%.0f", ·)` never overshoots an integer upper
bound of its argument. -/
theorem roundHalfEven_le_of_le_int {q : ℚ} {m : ℤ} (h : q ≤ (m : ℚ)) :
    roundHalfEven q ≤ m := by
  have hfl : ⌊q⌋ ≤ m := by
    have h2 := Int.floor_le_floor h
    simpa using h2
  unfold roundHalfEven
  split_ifs with h1 h2 h3
  · exact hfl
  · have hq : (⌊q⌋ : ℚ) < q := by
      have h4 := not_lt.mp h1
      linarith
    have h5 : (⌊q⌋ : ℚ) < (m : ℚ) := lt_of_lt_of_le hq h
    have h6 : ⌊q⌋ < m := by exact_mod_cast h5
    omega
  · exact hfl
  · have hq : (⌊q⌋ : ℚ) < q := by
      have h4 := not_lt.mp h1
      linarith
    have h5 : (⌊q⌋ : ℚ) < (m : ℚ) := lt_of_lt_of_le hq h
    have h6 : ⌊q⌋ < m := by exact_mod_cast h5
    omega

/-- The rounding of `fmt.Sprintf("%.0f", ·)` never undershoots an integer
lower bound of its argument. -/
theorem le_roundHalfEven_of_int_le {k : ℤ} {q : ℚ} (h : (k : ℚ) ≤ q) :
    k ≤ roundHalfEven q := by
  have h1 : k ≤ ⌊q⌋ := Int.le_floor.mpr h
  have h2 := floor_le_roundHalfEven q
  omega

/-- On the nonnegative values the code feeds it, Go `int(·)` is the floor. -/
theorem goInt_eq_floor {q : ℚ} (h : 0 ≤ q) : goInt q = ⌊q⌋ := if_pos h

/-- Utilization is nonnegative whenever the used-blocks figure is and the
current size is positive. -/
theorem utilizationOf_nonneg {cur used : ℚ} (hc : 0 < cur) (hu : 0 ≤ used) :
    0 ≤ utilizationOf cur used := by
  unfold utilizationOf usedGiOf
  positivity

/-- The clamped new size never exceeds the parsed maximum. -/
theorem newSizeOf_le_max (cur s mx : ℚ) : newSizeOf cur s mx ≤ mx := by
  unfold newSizeOf
  split_ifs with h1
  · exact le_refl mx
  · exact not_lt.mp h1

/-- With a positive current size, a positive scale percentage and the maximum
not yet exceeded, the clamped new size is at least the current size. -/
theorem le_newSizeOf {cur s mx : ℚ} (hc : 0 < cur) (hs : 0 < s) (hle : cur ≤ mx) :
    cur ≤ newSizeOf cur s mx := by
  unfold newSizeOf
  split_ifs with h1
  · exact hle
  · have h2 : 0 < cur * (s / 100) := by positivity
    linarith

/-- With a positive current size, a positive scale percentage and the current
size strictly below the maximum, the clamped new size strictly exceeds the
current size. -/
theorem lt_newSizeOf {cur s mx : ℚ} (hc : 0 < cur) (hs : 0 < s) (hlt : cur < mx) :
    cur < newSizeOf cur s mx := by
  unfold newSizeOf
  split_ifs with h1
  · exact hlt
  · have h2 : 0 < cur * (s / 100) := by positivity
    linarith

/-- Single-pass size bounds: when the observed size and the parsed maximum are
whole Gi values, one pass leaves the size between its old value and the
maximum, and whole again. -/
theorem sync_finalSize_bounds (cur used : ℚ) (threshold : ℤ) (s mx : ℚ)
    (st : ScalerStatus) (w : World) (k m : ℤ) (hk : cur = (k : ℚ)) (hm : mx = (m : ℚ))
    (hc : 0 < cur) (hle : cur ≤ mx) (hs : 0 < s) :
    cur ≤ (sync cur used threshold s mx st w).finalSize ∧
    (sync cur used threshold s mx st w).finalSize ≤ mx ∧
    ∃ j : ℤ, (sync cur used threshold s mx st w).finalSize = (j : ℚ) := by
  have hg1 : k ≤ roundHalfEven (newSizeOf cur s mx) := by
    refine le_roundHalfEven_of_int_le ?_
    rw [← hk]
    exact le_newSizeOf hc hs hle
  have hg2 : roundHalfEven (newSizeOf cur s mx) ≤ m := by
    refine roundHalfEven_le_of_le_int ?_
    rw [← hm]
    exact newSizeOf_le_max cur s mx
  have hc1 : cur ≤ (roundHalfEven (newSizeOf cur s mx) : ℚ) :=
    calc cur = (k : ℚ) := hk
      _ ≤ (roundHalfEven (newSizeOf cur s mx) : ℚ) := by exact_mod_cast hg1
  have hc2 : (roundHalfEven (newSizeOf cur s mx) : ℚ) ≤ mx :=
    calc (roundHalfEven (newSizeOf cur s mx) : ℚ) ≤ (m : ℚ) := by exact_mod_cast hg2
      _ = mx := hm.symm
  unfold sync
  split_ifs <;>
    first
      | exact ⟨le_refl cur, hle, k, hk⟩
      | exact ⟨hc1, hc2, roundHalfEven (newSizeOf cur s mx), rfl⟩

/-- C1 (counterexample): `reachedMaxSize = true` does not stop size-increase
requests.  Pass 1 (size 7Gi, policy threshold 70, scale 30, max 10Gi, df
showing 7Gi used) scales to 9Gi and sets `reachedMaxSize` because the gap
10 - 9.1 is within the epsilon; the next pass for the same policy, now with
`reachedMaxSize = true` and observed size 9Gi below max, still issues a
size-increase request for 10Gi. -/
theorem C1_flag_not_absorbing_counterexample :
    (sync 7 7340032 70 30 10 ⟨none, false⟩ allOk).finalStatus.reachedMaxSize = true ∧
    (sync 7 7340032 70 30 10 ⟨none, false⟩ allOk).finalSize = 9 ∧
    (sync 9 7340032 70 30 10
        (sync 7 7340032 70 30 10 ⟨none, false⟩ allOk).finalStatus allOk).issuedResize =
      some 10 := by decide

/-- C1 (amended): what is absorbing is the observed size being at or beyond
the parsed maximum — any pass that observes `currentPVCSize >= maxSizeGi`
issues no size-increase request, whatever the utilization; the
`reachedMaxSize` flag by itself does not gate scaling. -/
theorem C1_max_size_absorbing (cur used : ℚ) (threshold : ℤ) (s mx : ℚ)
    (st : ScalerStatus) (w : World) (h : mx ≤ cur) :
    (sync cur used threshold s mx st w).issuedResize = none := by
  unfold sync
  rw [if_pos h]
  split_ifs <;> rfl

/-- C1 witness at a concrete maxed-out state. -/
theorem C1_max_size_absorbing_witness :
    (sync 10 7340032 70 30 10 ⟨none, true⟩ allOk).issuedResize = none :=
  C1_max_size_absorbing 10 7340032 70 30 10 ⟨none, true⟩ allOk (by norm_num)

/-- C2: for scale 30 percent and max 10Gi at current size 9Gi, any pass whose
observed utilization meets the threshold computes 9 * (1 + 30/100) = 11.7Gi,
clamps it to 10Gi, requests exactly 10Gi, and patches `reachedMaxSize` to
true because the gap to max (0) is within the epsilon of 1Gi. -/
theorem C2_clamped_to_max (threshold : ℤ) (used : ℚ)
    (hth : threshold ≤ goInt (utilizationOf 9 used)) :
    (sync 9 used threshold 30 10 ⟨none, false⟩ allOk).issuedResize = some 10 ∧
    (sync 9 used threshold 30 10 ⟨none, false⟩ allOk).issuedReachedMaxPatch = true ∧
    (sync 9 used threshold 30 10 ⟨none, false⟩ allOk).finalStatus.reachedMaxSize = true ∧
    (9 : ℚ) + 9 * (30 / 100) = 117 / 10 ∧ newSizeOf 9 30 10 = 10 := by
  unfold sync
  rw [if_neg (by norm_num : ¬ (10 : ℚ) ≤ 9), if_pos hth]
  decide

/-- C2 witness: utilization 7Gi of 9Gi is 77.8 percent, above threshold 70. -/
theorem C2_clamped_to_max_witness :
    (sync 9 7340032 70 30 10 ⟨none, false⟩ allOk).issuedResize = some 10 ∧
    (70 : ℤ) ≤ goInt (utilizationOf 9 7340032) :=
  ⟨(C2_clamped_to_max 70 7340032 (by decide)).1, by decide⟩

/-- C3 (counterexample): `"0.0049Ti"` does not normalize to the value of
`"5Gi"` — the digit scan stops at the decimal point, leaving numeric part
`"0"` and unit `".0049Ti"`, so the result is 0. -/
theorem C3_fractional_prefix_counterexample :
    convertToGi "0.0049Ti" ≠ convertToGi "5Gi" ∧ convertToGi "0.0049Ti" = some 0 := by decide

/-- C3 (amended): `"5Gi"` and `"5120Mi"` normalize to the same canonical value
5; the binary-prefix scaling divides `Mi` by 1024 and multiplies `Ti` by 1024,
and a pure number or an unknown suffix defaults to Gi; but a size string with
a fractional numeric prefix such as `"0.0049Ti"` is split at the decimal
point and yields 0, not 5.0176. -/
theorem C3_unit_normalization :
    convertToGi "5Gi" = some 5 ∧ convertToGi "5120Mi" = some 5 ∧
    convertToGi "0.0049Ti" = some 0 ∧
    convertToGi "2Ti" = some 2048 ∧ convertToGi "512Mi" = some (1 / 2) ∧
    convertToGi "7" = some 7 ∧ convertToGi "7Xi" = some 7 := by decide

/-- C4 (counterexample): with literally unchanged inputs (size 5Gi,
utilization 75 percent, threshold 70, scale 30, max 10Gi, same status), the
second of two consecutive passes is not a no-op: it issues the same
size-patch (6Gi) the first one issued, because the decision is a pure
function of the unchanged inputs. -/
theorem C4_second_call_not_noop_counterexample :
    (syncTwice 5 3932160 70 30 10 ⟨none, false⟩ allOk).2.issuedResize = some 6 ∧
    (syncTwice 5 3932160 70 30 10 ⟨none, false⟩ allOk).1.issuedResize = some 6 := by decide

/-- C4 (amended): two consecutive passes over unchanged inputs make the
identical decision — the second repeats the first exactly, including any
size-patch; re-applying that same merge patch at the target is idempotent
(the size it sets does not depend on the size it overwrites), so the repeat
changes nothing at the target even though a request is issued. -/
theorem C4_sync_deterministic_idempotent_at_target (cur used : ℚ) (threshold : ℤ)
    (s mx : ℚ) (st : ScalerStatus) (w : World) :
    (syncTwice cur used threshold s mx st w).2 = (syncTwice cur used threshold s mx st w).1 ∧
    ∀ g : ℤ, applyResizePatch (applyResizePatch cur g) g = applyResizePatch cur g :=
  ⟨rfl, fun _ => rfl⟩

/-- C5 (counterexample): a successful scale operation can shrink the volume.
A PVC of 5529Mi (5.3994Gi) with scale 1 percent and max 10Gi computes
5.4534Gi, which `fmt.Sprintf("%.0fGi")` rounds down to a successful resize
request of 5Gi — below the current size, refuting unconditional
non-decrease. -/
theorem C5_rounding_shrinks_counterexample :
    (sync (5529 / 1024) 524288 1 1 10 ⟨none, false⟩ allOk).issuedResize = some 5 ∧
    (sync (5529 / 1024) 524288 1 1 10 ⟨none, false⟩ allOk).finalSize < 5529 / 1024 := by
  decide

/-- C5 (amended): when the initial observed size and the parsed maximum are
whole Gi values (as holds for every size this controller itself patches and
for the policy schema's integer maxSize), any sequence of passes — whatever
utilizations are observed and whichever patches succeed — keeps the size
non-decreasing and never above the maximum. -/
theorem C5_monotonic_growth_bounded (used : ℕ → ℚ) (w : ℕ → World) (threshold : ℤ)
    (s mx init : ℚ) (st0 : ScalerStatus) (k m : ℤ)
    (hk : init = (k : ℚ)) (hm : mx = (m : ℚ))
    (hpos : 0 < init) (hle : init ≤ mx) (hs : 0 < s) :
    ∀ n, (runSteps used w threshold s mx st0 init n).1 ≤
          (runSteps used w threshold s mx st0 init (n + 1)).1 ∧
         (runSteps used w threshold s mx st0 init n).1 ≤ mx := by
  have key : ∀ n, (∃ j : ℤ, (runSteps used w threshold s mx st0 init n).1 = (j : ℚ)) ∧
      0 < (runSteps used w threshold s mx st0 init n).1 ∧
      (runSteps used w threshold s mx st0 init n).1 ≤ mx := by
    intro n
    induction n with
    | zero => exact ⟨⟨k, hk⟩, hpos, hle⟩
    | succ n ih =>
      obtain ⟨⟨j, hj⟩, hp, hb⟩ := ih
      have hstep := sync_finalSize_bounds (runSteps used w threshold s mx st0 init n).1
        (used n) threshold s mx (runSteps used w threshold s mx st0 init n).2 (w n)
        j m hj hm hp hb hs
      refine ⟨?_, ?_, ?_⟩
      · simpa [runSteps] using hstep.2.2
      · have h2 := lt_of_lt_of_le hp hstep.1
        simpa [runSteps] using h2
      · simpa [runSteps] using hstep.2.1
  intro n
  obtain ⟨⟨j, hj⟩, hp, hb⟩ := key n
  have hstep := sync_finalSize_bounds (runSteps used w threshold s mx st0 init n).1
    (used n) threshold s mx (runSteps used w threshold s mx st0 init n).2 (w n)
    j m hj hm hp hb hs
  exact ⟨by simpa [runSteps] using hstep.1, hb⟩

/-- C5 witness: a concrete whole-Gi run (size 5Gi, threshold 70, scale 30,
max 10Gi, 7Gi used every cycle, all patches succeeding). -/
theorem C5_monotonic_growth_bounded_witness :
    (runSteps (fun _ => 7340032) (fun _ => allOk) 70 30 10 ⟨none, false⟩ 5 1).1 ≤
      (runSteps (fun _ => 7340032) (fun _ => allOk) 70 30 10 ⟨none, false⟩ 5 2).1 ∧
    (runSteps (fun _ => 7340032) (fun _ => allOk) 70 30 10 ⟨none, false⟩ 5 1).1 ≤ 10 :=
  C5_monotonic_growth_bounded (fun _ => 7340032) (fun _ => allOk) 70 30 10 5 ⟨none, false⟩
    5 10 (by norm_num) (by norm_num) (by norm_num) (by norm_num) (by norm_num) 1

/-- C6: for an actionable policy whose volume is below max, scaling is
triggered exactly when the floor of the utilization percentage reaches the
threshold — equality triggers (the code uses `>=`), and a floor below the
threshold ends the pass with no action at all. -/
theorem C6_threshold_boundary (cur used : ℚ) (threshold : ℤ) (s mx : ℚ)
    (st : ScalerStatus) (w : World)
    (hc : 0 < cur) (hlt : cur < mx) (hs : 0 < s) (hu : 0 ≤ used) :
    ((sync cur used threshold s mx st w).issuedResize.isSome = true ↔
      threshold ≤ ⌊utilizationOf cur used⌋) ∧
    (⌊utilizationOf cur used⌋ < threshold →
      sync cur used threshold s mx st w = ⟨true, none, false, false, [], cur, st⟩) := by
  have hni : ¬ mx ≤ cur := not_le.mpr hlt
  have hgi : goInt (utilizationOf cur used) = ⌊utilizationOf cur used⌋ :=
    goInt_eq_floor (utilizationOf_nonneg hc hu)
  have hne : ¬ newSizeOf cur s mx = cur := ne_of_gt (lt_newSizeOf hc hs hlt)
  constructor
  · constructor
    · intro hsome
      by_contra hth
      unfold sync at hsome
      rw [if_neg hni, hgi, if_neg hth] at hsome
      simp at hsome
    · intro hth
      unfold sync
      rw [if_neg hni, hgi, if_pos hth, if_neg hne]
      split_ifs <;> simp
  · intro hth
    unfold sync
    rw [if_neg hni, hgi, if_neg (not_le.mpr hth)]

/-- C6 witness: utilization exactly at the threshold (7Gi used of 10Gi is
exactly 70 percent) does trigger a resize request. -/
theorem C6_threshold_boundary_witness :
    (sync 10 7340032 70 30 20 ⟨none, false⟩ allOk).issuedResize.isSome = true :=
  (C6_threshold_boundary 10 7340032 70 30 20 ⟨none, false⟩ allOk
    (by norm_num) (by norm_num) (by norm_num) (by norm_num)).1.mpr (by decide)

/-- C7: whenever the observed size is at or beyond the parsed maximum, the
pass patches `reachedMaxSize` exactly when it is not already set, and stops:
no utilization probe, no resize request, no `scaledAt` patch. -/
theorem C7_max_short_circuit (cur used : ℚ) (threshold : ℤ) (s mx : ℚ)
    (st : ScalerStatus) (w : World) (h : mx ≤ cur) :
    (sync cur used threshold s mx st w).probed = false ∧
    (sync cur used threshold s mx st w).issuedResize = none ∧
    (sync cur used threshold s mx st w).issuedScaledAtPatch = false ∧
    (sync cur used threshold s mx st w).issuedReachedMaxPatch = !st.reachedMaxSize := by
  unfold sync
  rw [if_pos h]
  split_ifs with h2 h3 <;> simp_all

/-- C7 witness: at max with the flag still unset, the only action is the
status patch. -/
theorem C7_max_short_circuit_witness :
    (sync 10 7340032 70 30 10 ⟨none, false⟩ allOk).probed = false ∧
    (sync 10 7340032 70 30 10 ⟨none, false⟩ allOk).issuedResize = none ∧
    (sync 10 7340032 70 30 10 ⟨none, false⟩ allOk).issuedScaledAtPatch = false ∧
    (sync 10 7340032 70 30 10 ⟨none, false⟩ allOk).issuedReachedMaxPatch = !false :=
  C7_max_short_circuit 10 7340032 70 30 10 ⟨none, false⟩ allOk (by norm_num)

/-- C8 (counterexample): the end-to-end scenario patches the PVC to `"6Gi"`,
not `"7Gi"` — the computed 6.5Gi is formatted by `fmt.Sprintf("%.0fGi")`,
which rounds ties to even. -/
theorem C8_rounds_to_six_counterexample :
    Option.map formatGi (sync 5 3932160 70 30 10 ⟨none, false⟩ allOk).issuedResize =
      some "6Gi" ∧
    Option.map formatGi (sync 5 3932160 70 30 10 ⟨none, false⟩ allOk).issuedResize ≠
      some "7Gi" := by decide

/-- C8 (amended): policy threshold 70, scale 30, max 10Gi, volume 5Gi at 75
percent utilization computes 5 * (1 + 30/100) = 6.5Gi, patches the PVC with
the rounded string `"6Gi"` (ties-to-even), updates `scaledAt`, and leaves
`reachedMaxSize` false since the gap to max (3.5Gi) exceeds the epsilon. -/
theorem C8_end_to_end_scenario :
    (sync 5 3932160 70 30 10 ⟨none, false⟩ allOk).issuedResize = some 6 ∧
    Option.map formatGi (sync 5 3932160 70 30 10 ⟨none, false⟩ allOk).issuedResize =
      some "6Gi" ∧
    (sync 5 3932160 70 30 10 ⟨none, false⟩ allOk).issuedScaledAtPatch = true ∧
    (sync 5 3932160 70 30 10 ⟨none, false⟩ allOk).finalStatus.scaledAt = some allOk.now ∧
    (sync 5 3932160 70 30 10 ⟨none, false⟩ allOk).finalStatus.reachedMaxSize = false ∧
    (sync 5 3932160 70 30 10 ⟨none, false⟩ allOk).issuedReachedMaxPatch = false ∧
    newSizeOf 5 30 10 = 13 / 2 := by decide

/-- C9 (counterexample): a failing `scaledAt` status patch after a successful
resize is swallowed, not reported: the pass logs the error and continues —
it still issues the near-max `reachedMaxSize` patch and commits the new size,
finishing exactly like a fully successful pass apart from the log line. -/
theorem C9_status_patch_error_swallowed_counterexample :
    (sync 7 7340032 70 30 10 ⟨none, false⟩ ⟨true, false, true, "T"⟩).issuedResize = some 9 ∧
    (sync 7 7340032 70 30 10 ⟨none, false⟩ ⟨true, false, true, "T"⟩).loggedErrors =
      ["Error patching VolumeScaler scaledAt"] ∧
    (sync 7 7340032 70 30 10 ⟨none, false⟩ ⟨true, false, true, "T"⟩).issuedReachedMaxPatch =
      true ∧
    (sync 7 7340032 70 30 10 ⟨none, false⟩ ⟨true, false, true, "T"⟩).finalSize = 9 ∧
    (sync 7 7340032 70 30 10 ⟨none, false⟩ ⟨true, false, true, "T"⟩).finalStatus =
      ⟨none, true⟩ := by decide

/-- C9 (amended): below max, a failed resize request aborts the rest of the
pass with nothing committed — size and status unchanged, no status patch
issued (no partial commit); whereas the outcome of the `scaledAt` status
patch after a successful resize influences nothing else in the pass: the
resize decision, the near-max patch, the committed size and the final
`reachedMaxSize` are identical whether it succeeds or fails — the error is
only logged, and retry happens solely through the fixed rescan loop. -/
theorem C9_no_partial_commit_errors_logged (cur used : ℚ) (threshold : ℤ) (s mx : ℚ)
    (st : ScalerStatus) (w : World) (hlt : cur < mx) :
    (w.pvcPatchOk = false →
      (sync cur used threshold s mx st w).finalSize = cur ∧
      (sync cur used threshold s mx st w).finalStatus = st ∧
      (sync cur used threshold s mx st w).issuedScaledAtPatch = false ∧
      (sync cur used threshold s mx st w).issuedReachedMaxPatch = false) ∧
    (∀ b : Bool,
      (sync cur used threshold s mx st { w with scaledAtPatchOk := b }).issuedResize =
        (sync cur used threshold s mx st w).issuedResize ∧
      (sync cur used threshold s mx st { w with scaledAtPatchOk := b }).issuedReachedMaxPatch =
        (sync cur used threshold s mx st w).issuedReachedMaxPatch ∧
      (sync cur used threshold s mx st { w with scaledAtPatchOk := b }).finalSize =
        (sync cur used threshold s mx st w).finalSize ∧
      (sync cur used threshold s mx st
          { w with scaledAtPatchOk := b }).finalStatus.reachedMaxSize =
        (sync cur used threshold s mx st w).finalStatus.reachedMaxSize) := by
  have hni : ¬ mx ≤ cur := not_le.mpr hlt
  obtain ⟨p, sa, rm, nw⟩ := w
  constructor
  · intro hpvc
    unfold sync
    rw [if_neg hni]
    split_ifs <;> simp_all
  · intro b
    unfold sync
    rw [if_neg hni]
    split_ifs <;> simp_all

/-- C9 witness: concrete no-partial-commit and swallowing instances. -/
theorem C9_no_partial_commit_errors_logged_witness :
    (sync 5 3932160 70 30 10 ⟨none, false⟩ ⟨false, true, true, "T"⟩).finalStatus =
      ⟨none, false⟩ ∧
    (sync 5 3932160 70 30 10 ⟨none, false⟩ ⟨true, false, true, "T"⟩).finalSize =
      (sync 5 3932160 70 30 10 ⟨none, false⟩ ⟨true, true, true, "T"⟩).finalSize :=
  ⟨((C9_no_partial_commit_errors_logged 5 3932160 70 30 10 ⟨none, false⟩
      ⟨false, true, true, "T"⟩ (by norm_num)).1 rfl).2.1,
   ((C9_no_partial_commit_errors_logged 5 3932160 70 30 10 ⟨none, false⟩
      ⟨true, true, true, "T"⟩ (by norm_num)).2 false).2.2.1⟩

/-- In the spec-modelled Work Queue, draining delivers exactly the pending
identifiers in FIFO order. -/
theorem WorkQueue.deliveries_eq_pending {α : Type} (q : WorkQueue α) :
    q.deliveries = q.pending := by
  obtain ⟨p, f⟩ := q
  induction p generalizing f with
  | nil => simp [WorkQueue.deliveries]
  | cons x xs ih => simpa [WorkQueue.deliveries] using ih (x :: f)

/-- Enqueueing an already-pending identifier is a no-op. -/
theorem WorkQueue.add_of_mem {α : Type} [DecidableEq α] {id0 : α} {q : WorkQueue α}
    (h : id0 ∈ q.pending) : q.add id0 = q := by
  unfold WorkQueue.add
  exact if_pos h

/-- Repeatedly enqueueing a not-yet-pending identifier appends it exactly
once: every later `add` of the same identifier is a no-op. -/
theorem WorkQueue.addIter_pending {α : Type} [DecidableEq α] (id0 : α) (q0 : WorkQueue α)
    (h : id0 ∉ q0.pending) :
    ∀ n, 1 ≤ n →
      ((fun q => WorkQueue.add q id0)^[n] q0).pending = q0.pending ++ [id0] := by
  intro n hn
  induction n with
  | zero => omega
  | succ n ih =>
    rcases Nat.eq_or_lt_of_le hn with h1 | h1
    · rw [← h1]
      simp [WorkQueue.add, h]
    · have h2 : 1 ≤ n := by omega
      rw [Function.iterate_succ_apply']
      have h4 : id0 ∈ ((fun q => WorkQueue.add q id0)^[n] q0).pending := by
        rw [ih h2]
        simp
      rw [WorkQueue.add_of_mem h4]
      exact ih h2

/-- C10: N rapid `add(id)` calls for the same identifier, starting from any
queue where it is not yet pending, leave it pending exactly once, and a full
drain of the queue delivers it exactly once (spec-modelled Work Queue). -/
theorem C10_duplicate_enqueue_collapsing {α : Type} [DecidableEq α] (id0 : α)
    (q0 : WorkQueue α) (n : ℕ) (h1 : id0 ∉ q0.pending) (h2 : 1 ≤ n) :
    ((fun q => WorkQueue.add q id0)^[n] q0).pending = q0.pending ++ [id0] ∧
    ((fun q => WorkQueue.add q id0)^[n] q0).deliveries.count id0 = 1 := by
  have hp := WorkQueue.addIter_pending id0 q0 h1 n h2
  refine ⟨hp, ?_⟩
  rw [WorkQueue.deliveries_eq_pending, hp]
  simp [List.count_append, List.count_eq_zero.mpr h1]

/-- C10 witness: three rapid enqueues of one identifier into the empty queue
yield a single delivery. -/
theorem C10_duplicate_enqueue_collapsing_witness :
    ((fun q => WorkQueue.add q (0 : ℕ))^[3] (WorkQueue.empty ℕ)).deliveries.count 0 = 1 :=
  (C10_duplicate_enqueue_collapsing 0 (WorkQueue.empty ℕ) 3
    (by simp [WorkQueue.empty]) (by norm_num)).2

end Volumescaler
